import Mathlib

/-!
Verification of the wasm-game-of-life core (Conway's Game of Life on a
toroidal grid) and its JS glue layer (`docs/0.bootstrap.js`).

The glue layer (typed-array view caching, `Universe.free`, the wasm-bindgen
wrappers) is embedded directly from `docs/0.bootstrap.js`.  The engine
itself (`universe_new`, `universe_tick`, `universe_render`) ships only as a
compiled WebAssembly module, so those operations are modelled from the
specification, as flagged on each definition.
-/

/-- The two cell states, from the glue's frozen enum
`Cell = Object.freeze(...)` with variants `Dead` and `Alive`. -/
inductive Cell where
  | Dead : Cell
  | Alive : Cell
  deriving DecidableEq, Repr

/-- Modelled from the spec: the Universe record owned by the wasm side
(the Rust struct is not in the repository sources): a fixed `width`,
`height`, and a row-major `cells` buffer of length `width * height`. -/
structure Universe where
  width : Nat
  height : Nat
  cells : List Cell
  deriving DecidableEq, Repr

/-- Row-major index of the cell at row `y`, column `x`:
index `y * width + x`. -/
def Universe.getIndex (u : Universe) (row col : Nat) : Nat :=
  row * u.width + col

/-- The cell stored at row `row`, column `col` (default `Dead` when out of
range; for a well-formed Universe every in-grid access is in range). -/
def Universe.cellAt (u : Universe) (row col : Nat) : Cell :=
  u.cells.getD (u.getIndex row col) Cell.Dead

/-- Numeric score of a cell when accumulating neighbor counts:
`Alive` counts 1, `Dead` counts 0. -/
def cellScore : Cell → Nat
  | Cell.Alive => 1
  | Cell.Dead => 0

/-- Wrap an integer coordinate onto `[0, m)` (toroidal topology):
the mathematical residue modulo `m`. -/
def wrapCoord (n : Int) (m : Nat) : Nat :=
  (n % (m : Int)).toNat

/-- The row/column offsets `-1, 0, +1` used for neighbor scanning. -/
def deltas : List Int := [-1, 0, 1]

/-- Modelled from the spec: the live-neighbor count computed inside the
wasm `universe_tick` (absent from the sources): the number of `Alive`
cells among the 8 positions at row/column offsets of -1, 0, +1 from
`(row, col)`, excluding the offset `(0, 0)`, with row indices wrapping
modulo `height` and column indices modulo `width`. -/
def Universe.liveNeighborCount (u : Universe) (row col : Nat) : Nat :=
  (deltas.map (fun dr =>
    (deltas.map (fun dc =>
      if dr = 0 ∧ dc = 0 then 0
      else cellScore (u.cellAt (wrapCoord ((row : Int) + dr) u.height)
                               (wrapCoord ((col : Int) + dc) u.width)))).sum)).sum

/-- Modelled from the spec: Conway's transition rule as applied by the
wasm `universe_tick` (absent from the sources). -/
def nextCell (c : Cell) (liveNeighbors : Nat) : Cell :=
  match c with
  | Cell.Alive =>
      if liveNeighbors < 2 then Cell.Dead
      else if liveNeighbors = 2 ∨ liveNeighbors = 3 then Cell.Alive
      else Cell.Dead
  | Cell.Dead =>
      if liveNeighbors = 3 then Cell.Alive else Cell.Dead

/-- Modelled from the spec: the wasm `universe_tick` (absent from the
sources).  Every next state is computed from the current generation into a
fresh buffer, which then replaces `cells`; `width` and `height` are left
untouched. -/
def Universe.tick (u : Universe) : Universe :=
  { u with
    cells := (List.range (u.height * u.width)).map (fun i =>
      nextCell (u.cells.getD i Cell.Dead)
               (u.liveNeighborCount (i / u.width) (i % u.width))) }

/-- The wasm-bindgen `tick()` wrapper from `docs/0.bootstrap.js`: it calls
into the engine for its effect and produces no value (`@returns void`). -/
def Universe.tickOp (u : Universe) : Unit × Universe :=
  ((), u.tick)

/-- Modelled from the spec: glyph for one cell in the rendered snapshot; a
total, two-valued function of `Cell`. -/
def cellChar : Cell → Char
  | Cell.Dead => '◻'
  | Cell.Alive => '◼'

/-- One rendered line: the `width` glyphs of row `y` in left-to-right
column order. -/
def Universe.renderLine (u : Universe) (y : Nat) : String :=
  String.mk ((List.range u.width).map (fun x => cellChar (u.cellAt y x)))

/-- The `height` rendered lines, top to bottom. -/
def Universe.renderLines (u : Universe) : List String :=
  (List.range u.height).map (fun y => u.renderLine y)

/-- Modelled from the spec: the wasm `universe_render` (absent from the
sources): `height` lines separated by a single newline character. -/
def Universe.render (u : Universe) : String :=
  String.intercalate "\n" u.renderLines

/-- The wasm-bindgen `render()` wrapper from `docs/0.bootstrap.js`: it
returns a fresh string copied out of wasm memory and leaves the Universe
untouched. -/
def Universe.renderOp (u : Universe) : String × Universe :=
  (u.render, u)

/-- Modelled from the spec: the initial buffer built by the wasm
`universe_new` (absent from the sources): a deterministic, modulo-based
function of each cell's row-major index. -/
def initialCells (width height : Nat) : List Cell :=
  (List.range (width * height)).map (fun i =>
    if i % 2 = 0 ∨ i % 7 = 0 then Cell.Alive else Cell.Dead)

/-- Modelled from the spec: the guarded core constructor for valid
dimensions. -/
def newUniverse (width height : Nat) : Universe :=
  { width := width, height := height, cells := initialCells width height }

/-- Modelled from the spec: the construction entry point `new(width,
height)` (the wasm `universe_new` is absent from the sources); per the
error-handling design it fails fast on non-positive dimensions and never
returns a Universe with a malformed cell buffer. -/
def universe_new (width height : Int) : Except String Universe :=
  if width ≤ 0 ∨ height ≤ 0 then
    Except.error "width and height must be positive"
  else
    Except.ok (newUniverse width.toNat height.toNat)

/-- The 8 neighbor offsets, flattened, in scan order. -/
def neighborOffsets : List (Int × Int) :=
  [(-1, -1), (-1, 0), (-1, 1), (0, -1), (0, 1), (1, -1), (1, 0), (1, 1)]

/-- The JS heap view state of `docs/0.bootstrap.js`: the identity of the
wasm linear memory's backing `ArrayBuffer` (replaced on memory growth) and
the two cached typed-array views.  A view records the buffer it was
created over. -/
structure TypedArrayView where
  buffer : Nat
  deriving DecidableEq, Repr

/-- The module-level mutable state of `docs/0.bootstrap.js` relevant to
the memory accessors: the current backing buffer and the two caches
(`cachegetUint8Memory`, `cachegetUint32Memory`), each possibly null. -/
structure WasmGlue where
  memoryBuffer : Nat
  cachegetUint8Memory : Option TypedArrayView
  cachegetUint32Memory : Option TypedArrayView
  deriving DecidableEq, Repr

/-- `getUint8Memory` from `docs/0.bootstrap.js`: when the cache is null or
its view's buffer differs from the current memory buffer, a fresh
`Uint8Array` view over the current buffer is created and cached; the
(possibly refreshed) cached view is returned. -/
def getUint8Memory (s : WasmGlue) : TypedArrayView × WasmGlue :=
  match s.cachegetUint8Memory with
  | none =>
      let v : TypedArrayView := { buffer := s.memoryBuffer }
      (v, { s with cachegetUint8Memory := some v })
  | some v =>
      if v.buffer ≠ s.memoryBuffer then
        let v2 : TypedArrayView := { buffer := s.memoryBuffer }
        (v2, { s with cachegetUint8Memory := some v2 })
      else
        (v, s)

/-- `getUint32Memory` from `docs/0.bootstrap.js`: same re-validated cache
discipline as `getUint8Memory`, for the `Uint32Array` view. -/
def getUint32Memory (s : WasmGlue) : TypedArrayView × WasmGlue :=
  match s.cachegetUint32Memory with
  | none =>
      let v : TypedArrayView := { buffer := s.memoryBuffer }
      (v, { s with cachegetUint32Memory := some v })
  | some v =>
      if v.buffer ≠ s.memoryBuffer then
        let v2 : TypedArrayView := { buffer := s.memoryBuffer }
        (v2, { s with cachegetUint32Memory := some v2 })
      else
        (v, s)

/-- A JS-side Universe handle from `docs/0.bootstrap.js`: the wrapper
object holding the wasm pointer in its `ptr` field. -/
structure UniverseHandle where
  ptr : Nat
  deriving DecidableEq, Repr

/-- The wasm side observed through the glue: the sequence of pointers
passed to `__wbg_universe_free`, in call order. -/
structure WasmHost where
  freedPtrs : List Nat
  deriving DecidableEq, Repr

/-- `freeUniverse(ptr)` from `docs/0.bootstrap.js`: forwards `ptr` to the
wasm export `__wbg_universe_free`. -/
def freeUniverse (host : WasmHost) (p : Nat) : WasmHost :=
  { host with freedPtrs := host.freedPtrs ++ [p] }

/-- `Universe.free` from `docs/0.bootstrap.js`: saves `this.ptr`, zeroes
the field, then releases the saved pointer via `freeUniverse`. -/
def UniverseHandle.free (h : UniverseHandle) (host : WasmHost) :
    UniverseHandle × WasmHost :=
  let ptr := h.ptr
  let h2 : UniverseHandle := { h with ptr := 0 }
  (h2, freeUniverse host ptr)

/-- The vertical blinker on the 3 by 3 grid: alive exactly at
column 1, rows 0, 1, 2 (row-major indices 1, 4, 7). -/
def blinkerV : Universe :=
  Universe.mk 3 3
    [Cell.Dead, Cell.Alive, Cell.Dead,
     Cell.Dead, Cell.Alive, Cell.Dead,
     Cell.Dead, Cell.Alive, Cell.Dead]

/-- The horizontal blinker on the 3 by 3 grid: alive exactly at
row 1, columns 0, 1, 2 (row-major indices 3, 4, 5). -/
def blinkerH : Universe :=
  Universe.mk 3 3
    [Cell.Dead, Cell.Dead, Cell.Dead,
     Cell.Alive, Cell.Alive, Cell.Alive,
     Cell.Dead, Cell.Dead, Cell.Dead]

lemma tick_cellAt (u : Universe) (row col : Nat)
    (hr : row < u.height) (hc : col < u.width) :
    u.tick.cellAt row col =
      nextCell (u.cellAt row col) (u.liveNeighborCount row col) := by
  have hw : 0 < u.width := Nat.pos_of_ne_zero (by omega)
  have hidx : row * u.width + col <
      ((List.range (u.height * u.width)).map (fun i =>
        nextCell (u.cells.getD i Cell.Dead)
          (u.liveNeighborCount (i / u.width) (i % u.width)))).length := by
    simp only [List.length_map, List.length_range]
    have h1 : (row + 1) * u.width ≤ u.height * u.width :=
      Nat.mul_le_mul_right _ hr
    have h2 : (row + 1) * u.width = row * u.width + u.width := by ring
    omega
  have hdiv : (row * u.width + col) / u.width = row := by
    rw [Nat.mul_comm, Nat.mul_add_div hw, Nat.div_eq_of_lt hc, Nat.add_zero]
  have hmod : (row * u.width + col) % u.width = col := by
    rw [Nat.mul_comm, Nat.mul_add_mod, Nat.mod_eq_of_lt hc]
  show (u.tick.cells).getD (u.tick.getIndex row col) Cell.Dead = _
  have htw : u.tick.getIndex row col = row * u.width + col := rfl
  rw [htw]
  show ((List.range (u.height * u.width)).map _).getD (row * u.width + col)
    Cell.Dead = _
  rw [List.getD_eq_getElem _ _ hidx, List.getElem_map, List.getElem_range,
    hdiv, hmod]
  rfl

lemma wrapCoord_neg_one (m : Nat) (hm : 0 < m) : wrapCoord (-1) m = m - 1 := by
  unfold wrapCoord
  have h1 : ((-1 : Int) % (m : Int)) = (m : Int) - 1 := by
    have he : ((-1 : Int) + (m : Int) * 1) % (m : Int) = (-1 : Int) % (m : Int) :=
      Int.add_mul_emod_self_left (-1) (m : Int) 1
    have h2 : ((-1 : Int) + (m : Int) * 1) = (m : Int) - 1 := by ring
    have h3 : ((m : Int) - 1) % (m : Int) = (m : Int) - 1 :=
      Int.emod_eq_of_lt (by omega) (by omega)
    rw [h2, h3] at he
    omega
  rw [h1]
  omega

/-- Claim C1: for every in-range cell of a Universe, one `tick()` sends it
to the state given by Conway's rule applied to its current state and
current live-neighbor count: Alive with fewer than 2 live neighbors dies,
Alive with 2 or 3 survives, Alive with more than 3 dies, Dead with exactly
3 becomes Alive, and every other cell keeps its state.  The next state
depends only on the current generation, since `tick` builds a fresh buffer
from the pre-tick `cells`. -/
theorem conway_rule_tick (u : Universe) (row col : Nat)
    (hr : row < u.height) (hc : col < u.width) :
    u.tick.cellAt row col =
      (if u.cellAt row col = Cell.Alive ∧ u.liveNeighborCount row col < 2 then
        Cell.Dead
      else if u.cellAt row col = Cell.Alive ∧
          (u.liveNeighborCount row col = 2 ∨ u.liveNeighborCount row col = 3) then
        Cell.Alive
      else if u.cellAt row col = Cell.Alive ∧ 3 < u.liveNeighborCount row col then
        Cell.Dead
      else if u.cellAt row col = Cell.Dead ∧ u.liveNeighborCount row col = 3 then
        Cell.Alive
      else u.cellAt row col) := by
  rw [tick_cellAt u row col hr hc]
  rcases hcell : u.cellAt row col <;> simp only [hcell, nextCell] <;>
    split_ifs <;> simp_all <;> omega

lemma liveNeighborCount_flat (u : Universe) (row col : Nat) :
    u.liveNeighborCount row col =
      (neighborOffsets.map (fun d =>
        cellScore (u.cellAt (wrapCoord ((row : Int) + d.1) u.height)
                            (wrapCoord ((col : Int) + d.2) u.width)))).sum := by
  simp [Universe.liveNeighborCount, deltas, neighborOffsets]
  omega

/-- Claim C2: the live-neighbor count of `(row, col)` is the number of
Alive cells among the 8 positions at offsets -1, 0, +1 (excluding
`(0, 0)`), rows wrapping modulo `height` and columns modulo `width`; in
particular a live cell at row `height - 1`, column `width - 1` is counted
as a diagonal neighbor of the cell at `(0, 0)`. -/
theorem neighbor_count_eight (u : Universe) (row col : Nat)
    (hw : 0 < u.width) (hh : 0 < u.height) :
    u.liveNeighborCount row col =
      (neighborOffsets.map (fun d =>
        cellScore (u.cellAt (wrapCoord ((row : Int) + d.1) u.height)
                            (wrapCoord ((col : Int) + d.2) u.width)))).sum ∧
    (u.cellAt (u.height - 1) (u.width - 1) = Cell.Alive →
      1 ≤ u.liveNeighborCount 0 0) := by
  refine ⟨liveNeighborCount_flat u row col, fun halive => ?_⟩
  rw [liveNeighborCount_flat u 0 0]
  have h0 : ((0 : Nat) : Int) + (-1) = (-1 : Int) := by norm_num
  simp only [neighborOffsets, List.map_cons, List.map_nil, List.sum_cons,
    List.sum_nil, h0]
  rw [wrapCoord_neg_one u.height hh, wrapCoord_neg_one u.width hw, halive]
  simp [cellScore]

/-- Claim C2 witness: toroidal wrap on a 2 by 2 grid whose bottom-right
cell is alive. -/
theorem neighbor_count_eight_witness :
    (0 : Nat) < (Universe.mk 2 2
      [Cell.Dead, Cell.Dead, Cell.Dead, Cell.Alive]).width ∧
    (0 : Nat) < (Universe.mk 2 2
      [Cell.Dead, Cell.Dead, Cell.Dead, Cell.Alive]).height ∧
    ((Universe.mk 2 2 [Cell.Dead, Cell.Dead, Cell.Dead, Cell.Alive]).cellAt 1 1 =
        Cell.Alive →
      1 ≤ (Universe.mk 2 2
        [Cell.Dead, Cell.Dead, Cell.Dead, Cell.Alive]).liveNeighborCount 0 0) :=
  ⟨by decide, by decide,
    (neighbor_count_eight
      (Universe.mk 2 2 [Cell.Dead, Cell.Dead, Cell.Dead, Cell.Alive]) 0 0
      (by decide) (by decide)).2⟩

/-- Claim C3 counterexample: on the 3 by 3 toroidal grid the vertical
blinker does NOT turn into the horizontal blinker and back; the claim's
two-tick scenario is false on the wrapped grid. -/
theorem blinker3_counterexample :
    ¬ (blinkerV.tick = blinkerH ∧ blinkerV.tick.tick = blinkerV) := by decide

/-- Claim C3 (amended): on the 3 by 3 toroidal grid, every Dead cell next
to the vertical blinker also sees exactly 3 live neighbors through the
wrap, so one `tick()` makes all nine cells Alive, and a second `tick()`
kills every cell (each then has 8 live neighbors). -/
theorem blinker3_torus :
    blinkerV.tick = Universe.mk 3 3 (List.replicate 9 Cell.Alive) ∧
    blinkerV.tick.tick = Universe.mk 3 3 (List.replicate 9 Cell.Dead) := by
  decide

/-- Claim C4: the rendered snapshot is `height` lines joined by a single
newline; each line has exactly `width` characters in left-to-right column
order; the character at column `x` of line `y` is the fixed glyph of the
cell at row-major index `y * width + x`; and the two glyphs are a total,
stable, two-valued function of `Cell` with distinct values. -/
theorem render_format (u : Universe) (y x : Nat)
    (hy : y < u.height) (hx : x < u.width) :
    u.render = String.intercalate "\n" u.renderLines ∧
    u.renderLines.length = u.height ∧
    (u.renderLines.getD y "").length = u.width ∧
    (u.renderLines.getD y "").data.getD x ' ' = cellChar (u.cellAt y x) ∧
    cellChar Cell.Dead ≠ cellChar Cell.Alive := by
  have hlen : y < u.renderLines.length := by
    simpa [Universe.renderLines] using hy
  have hline : u.renderLines.getD y "" = u.renderLine y := by
    rw [List.getD_eq_getElem _ _ hlen]
    simp [Universe.renderLines]
  refine ⟨rfl, by simp [Universe.renderLines], ?_, ?_, by decide⟩
  · rw [hline]
    show ((List.range u.width).map (fun j => cellChar (u.cellAt y j))).length =
      u.width
    simp
  · rw [hline]
    show ((List.range u.width).map (fun j => cellChar (u.cellAt y j))).getD x ' ' =
      cellChar (u.cellAt y x)
    have hx2 : x <
        ((List.range u.width).map (fun j => cellChar (u.cellAt y j))).length := by
      simpa using hx
    rw [List.getD_eq_getElem _ _ hx2, List.getElem_map, List.getElem_range]

/-- Claim C4 witness: the format facts evaluated on the vertical blinker
at line 0, column 0. -/
theorem render_format_witness :
    (0 : Nat) < blinkerV.height ∧ (0 : Nat) < blinkerV.width ∧
    (blinkerV.render = String.intercalate "\n" blinkerV.renderLines ∧
     blinkerV.renderLines.length = blinkerV.height ∧
     (blinkerV.renderLines.getD 0 "").length = blinkerV.width ∧
     (blinkerV.renderLines.getD 0 "").data.getD 0 ' ' =
       cellChar (blinkerV.cellAt 0 0) ∧
     cellChar Cell.Dead ≠ cellChar Cell.Alive) :=
  ⟨by decide, by decide, render_format blinkerV 0 0 (by decide) (by decide)⟩

/-- Claim C5: the `tick()` wrapper produces no value beyond its effect on
the state, and the post-state keeps the same `width` and `height`. -/
theorem tick_frame (u : Universe) :
    u.tickOp.1 = () ∧ u.tickOp.2.width = u.width ∧ u.tickOp.2.height = u.height :=
  ⟨rfl, rfl, rfl⟩

/-- Claim C6: a freshly constructed Universe has a `cells` buffer of
length exactly `width * height`, indexed row-major (`y * width + x`), and
both operations preserve the length invariant. -/
theorem cells_length_invariant (w h : Nat) (hw : 0 < w) (hh : 0 < h)
    (u : Universe) :
    (newUniverse w h).width = w ∧ (newUniverse w h).height = h ∧
    (newUniverse w h).cells.length = w * h ∧
    (∀ row col, (newUniverse w h).getIndex row col = row * w + col) ∧
    u.tick.cells.length = u.tick.width * u.tick.height ∧
    u.renderOp.2.cells.length = u.cells.length := by
  refine ⟨rfl, rfl, by simp [newUniverse, initialCells], fun row col => rfl,
    ?_, rfl⟩
  show ((List.range (u.height * u.width)).map _).length = u.width * u.height
  simp [Nat.mul_comm]

/-- Claim C6 witness: the invariant evaluated on a fresh 2 by 3 Universe
and on the vertical blinker. -/
theorem cells_length_invariant_witness :
    (0 : Nat) < 2 ∧ (0 : Nat) < 3 ∧
    ((newUniverse 2 3).width = 2 ∧ (newUniverse 2 3).height = 3 ∧
     (newUniverse 2 3).cells.length = 2 * 3 ∧
     (∀ row col, (newUniverse 2 3).getIndex row col = row * 2 + col) ∧
     blinkerV.tick.cells.length = blinkerV.tick.width * blinkerV.tick.height ∧
     blinkerV.renderOp.2.cells.length = blinkerV.cells.length) :=
  ⟨by decide, by decide,
    cells_length_invariant 2 3 (by decide) (by decide) blinkerV⟩

/-- Claim C7: `render()` leaves the Universe unchanged, so two consecutive
calls with no intervening `tick()` return identical strings. -/
theorem render_pure (u : Universe) :
    u.renderOp.2 = u ∧ u.renderOp.2.renderOp.1 = u.renderOp.1 :=
  ⟨rfl, rfl⟩

/-- Claim C8: construction with non-positive width or height fails fast
with a constructed error value, and every successfully constructed
Universe has positive dimensions and a well-formed cell buffer. -/
theorem construction_guard (w h : Int) :
    (w ≤ 0 ∨ h ≤ 0 →
      universe_new w h = Except.error "width and height must be positive") ∧
    (∀ u, universe_new w h = Except.ok u →
      0 < u.width ∧ 0 < u.height ∧ u.cells.length = u.width * u.height) := by
  constructor
  · intro hneg
    simp [universe_new, hneg]
  · intro u hu
    by_cases hcond : w ≤ 0 ∨ h ≤ 0
    · simp [universe_new, hcond] at hu
    · unfold universe_new at hu
      rw [if_neg hcond] at hu
      injection hu with hu2
      subst hu2
      push_neg at hcond
      refine ⟨?_, ?_, by simp [newUniverse, initialCells]⟩
      · show 0 < w.toNat
        omega
      · show 0 < h.toNat
        omega

/-- Claim C8 witness: rejection at width 0, and a well-formed result at
width 2, height 3. -/
theorem construction_guard_witness :
    (((0 : Int) ≤ 0 ∨ (5 : Int) ≤ 0) ∧
      universe_new 0 5 = Except.error "width and height must be positive") ∧
    (universe_new 2 3 = Except.ok (newUniverse 2 3) ∧
      0 < (newUniverse 2 3).width ∧ 0 < (newUniverse 2 3).height ∧
      (newUniverse 2 3).cells.length =
        (newUniverse 2 3).width * (newUniverse 2 3).height) :=
  ⟨⟨Or.inl le_rfl, (construction_guard 0 5).1 (Or.inl le_rfl)⟩,
   ⟨rfl, (construction_guard 2 3).2 (newUniverse 2 3) rfl⟩⟩

/-- Claim C9: both memory accessors re-validate their cached view against
the current backing buffer: the returned view is always a view over the
current buffer (never a stale one), and the cache is left holding exactly
the returned view. -/
theorem memory_view_fresh (s : WasmGlue) :
    (getUint8Memory s).1.buffer = s.memoryBuffer ∧
    (getUint32Memory s).1.buffer = s.memoryBuffer ∧
    (getUint8Memory s).2.cachegetUint8Memory = some (getUint8Memory s).1 ∧
    (getUint32Memory s).2.cachegetUint32Memory = some (getUint32Memory s).1 := by
  rcases s with ⟨mb, c8, c32⟩
  refine ⟨?_, ?_, ?_, ?_⟩ <;>
    cases c8 <;> cases c32 <;>
      simp [getUint8Memory, getUint32Memory] <;>
        split_ifs <;> simp_all

/-- Claim C10: `free()` zeroes the handle's `ptr` field before releasing
the saved pointer; the release call receives the old pointer, and a second
`free()` on the same handle passes 0, not the released pointer. -/
theorem free_clears_ptr (h : UniverseHandle) (host : WasmHost) :
    (h.free host).1.ptr = 0 ∧
    (h.free host).2.freedPtrs = host.freedPtrs ++ [h.ptr] ∧
    ((h.free host).1.free (h.free host).2).2.freedPtrs =
      host.freedPtrs ++ [h.ptr, 0] := by
  simp [UniverseHandle.free, freeUniverse]

/-- Claim C1 witness: the rule evaluated on the center cell of the
vertical blinker. -/
theorem conway_rule_tick_witness :
    (1 : Nat) < blinkerV.height ∧ (1 : Nat) < blinkerV.width ∧
    blinkerV.tick.cellAt 1 1 =
      (if blinkerV.cellAt 1 1 = Cell.Alive ∧ blinkerV.liveNeighborCount 1 1 < 2 then
        Cell.Dead
      else if blinkerV.cellAt 1 1 = Cell.Alive ∧
          (blinkerV.liveNeighborCount 1 1 = 2 ∨ blinkerV.liveNeighborCount 1 1 = 3) then
        Cell.Alive
      else if blinkerV.cellAt 1 1 = Cell.Alive ∧ 3 < blinkerV.liveNeighborCount 1 1 then
        Cell.Dead
      else if blinkerV.cellAt 1 1 = Cell.Dead ∧ blinkerV.liveNeighborCount 1 1 = 3 then
        Cell.Alive
      else blinkerV.cellAt 1 1) :=
  ⟨by decide, by decide, conway_rule_tick blinkerV 1 1 (by decide) (by decide)⟩
